import Mathlib

/-!
# Verification of `src/models/SAStereonet.py` (MuSACNet)

A shallow embedding of the forward computational graph of the SAStereonet
stereo-matching network, together with theorems checking the repository's
natural-language specification against the code.

Modelling conventions:
* A feature tensor of shape `(n, c, h, w)` is a function
  `Fin n → Fin c → Fin h → Fin w → ℚ`; scalar values are rationals (the
  code computes with real-valued floats; the claims under check are
  dataflow/shape/algebraic properties that do not depend on rounding).
* The pointwise nonlinearities that have no exact rational definition
  (`nn.Sigmoid`, `nn.SELU`, and the reciprocal square root used inside
  batch normalization) are passed as explicit function parameters; `nn.ReLU`
  is `max · 0` exactly.
* The pretrained ResNet-34 backbone is external to this repository
  (`torchvision.models.resnet34`); it is abstracted as a function argument
  producing the three intermediate activation maps `res3d`, `res4f`, `res5c`
  that `front.forward` extracts from it.
* Stateful behaviour (the only mutation in a forward call is batch
  normalization's running-statistics update in training mode) is modelled by
  explicit state passing: `back.forward` and `SAStereonet.forward` return
  the updated module state next to the output tensor.
-/

/-- A `(batch, channel, height, width)` feature tensor with rational entries. -/
abbrev Tensor (n c h w : Nat) : Type := Fin n → Fin c → Fin h → Fin w → ℚ

/-- Bounds-checked read at integer coordinates; out-of-range reads give the
zero padding value used by `nn.Conv2d(padding=1)`. -/
def tget {n c h w : Nat} (x : Tensor n c h w) (b : Fin n) (ch : Fin c)
    (i j : ℤ) : ℚ :=
  if hb : i.toNat < h ∧ j.toNat < w ∧ 0 ≤ i ∧ 0 ≤ j then
    x b ch ⟨i.toNat, hb.1⟩ ⟨j.toNat, hb.2.1⟩
  else 0

/-- Clamped read at natural coordinates (used by bilinear resampling). -/
def cget {n c h w : Nat} (x : Tensor n c h w) (b : Fin n) (ch : Fin c)
    (i j : Nat) : ℚ :=
  if hb : i < h ∧ j < w then x b ch ⟨i, hb.1⟩ ⟨j, hb.2⟩ else 0

/-- Pointwise application of a scalar function (`nn.Sigmoid`, `nn.ReLU`,
`nn.SELU` are all applied elementwise). -/
def mapT {n c h w : Nat} (g : ℚ → ℚ) (x : Tensor n c h w) : Tensor n c h w :=
  fun b ch i j => g (x b ch i j)

/-- Elementwise (Hadamard) product: `y_s.mul(a_s)` at line 58. -/
def mulT {n c h w : Nat} (x y : Tensor n c h w) : Tensor n c h w :=
  fun b ch i j => x b ch i j * y b ch i j

/-- Elementwise sum: `x_S + y_S` at line 61. -/
def addT {n c h w : Nat} (x y : Tensor n c h w) : Tensor n c h w :=
  fun b ch i j => x b ch i j + y b ch i j

/-- `torch.cat((x, y), dim=1)`: concatenation along the channel axis. -/
def cat2 {n c1 c2 h w : Nat} (x : Tensor n c1 h w) (y : Tensor n c2 h w) :
    Tensor n (c1 + c2) h w :=
  fun b ch i j =>
    if hc : (ch : Nat) < c1 then x b ⟨ch, hc⟩ i j
    else y b ⟨(ch : Nat) - c1, by omega⟩ i j

/-- `max x 0`: exact semantics of `nn.ReLU`. -/
def relu (q : ℚ) : ℚ := max q 0

/-- Learned parameters of an `nn.Conv2d(cin, cout, kernel_size=k)` layer
(weight layout `(out, in, kh, kw)`, bias always present: the source never
passes `bias=False` to `nn.Conv2d`). -/
structure Conv2dParams (cin cout k : Nat) where
  weight : Fin cout → Fin cin → Fin k → Fin k → ℚ
  bias : Fin cout → ℚ

/-- Learned parameters of an `nn.ConvTranspose2d(cin, cout, kernel_size=k)`
layer (weight layout `(in, out, kh, kw)`). -/
structure ConvT2dParams (cin cout k : Nat) where
  weight : Fin cin → Fin cout → Fin k → Fin k → ℚ
  bias : Fin cout → ℚ

/-- `nn.Conv2d(kernel_size=3, stride=1, padding=1)`: same-padding 3×3
convolution, the shape-preserving cross-correlation with zero padding. -/
def conv2d3x3 {n cin cout h w : Nat} (p : Conv2dParams cin cout 3)
    (x : Tensor n cin h w) : Tensor n cout h w :=
  fun b o i j =>
    p.bias o + ∑ c : Fin cin, ∑ ki : Fin 3, ∑ kj : Fin 3,
      p.weight o c ki kj *
        tget x b c ((i : Nat) + (ki : Nat) - 1 : ℤ) ((j : Nat) + (kj : Nat) - 1 : ℤ)

/-- `nn.Conv2d(kernel_size=1, bias=True)`: pointwise channel re-projection. -/
def conv2d1x1 {n cin cout h w : Nat} (p : Conv2dParams cin cout 1)
    (x : Tensor n cin h w) : Tensor n cout h w :=
  fun b o i j => p.bias o + ∑ c : Fin cin, p.weight o c 0 0 * x b c i j

/-- `nn.ConvTranspose2d(kernel_size=4, stride=2, padding=1)`: doubles each
spatial dimension (`(h-1)*2 - 2 + 4 = 2h`). -/
def convT4s2p1 {n cin cout h w : Nat} (p : ConvT2dParams cin cout 4)
    (x : Tensor n cin h w) : Tensor n cout (2 * h) (2 * w) :=
  fun b o i j =>
    p.bias o + ∑ c : Fin cin, ∑ ih : Fin h, ∑ iw : Fin w, ∑ ki : Fin 4, ∑ kj : Fin 4,
      if ((i : Nat) : ℤ) = 2 * (ih : Nat) - 1 + (ki : Nat) ∧
         ((j : Nat) : ℤ) = 2 * (iw : Nat) - 1 + (kj : Nat) then
        p.weight c o ki kj * x b c ih iw
      else 0

/-- `nn.ConvTranspose2d(kernel_size=8, stride=4, padding=2)`: quadruples each
spatial dimension (`(h-1)*4 - 4 + 8 = 4h`). -/
def convT8s4p2 {n cin cout h w : Nat} (p : ConvT2dParams cin cout 8)
    (x : Tensor n cin h w) : Tensor n cout (4 * h) (4 * w) :=
  fun b o i j =>
    p.bias o + ∑ c : Fin cin, ∑ ih : Fin h, ∑ iw : Fin w, ∑ ki : Fin 8, ∑ kj : Fin 8,
      if ((i : Nat) : ℤ) = 4 * (ih : Nat) - 2 + (ki : Nat) ∧
         ((j : Nat) : ℤ) = 4 * (iw : Nat) - 2 + (kj : Nat) then
        p.weight c o ki kj * x b c ih iw
      else 0

/-- `nn.UpsamplingBilinear2d(size=⋯)` / `F.interpolate(mode=bilinear,
align_corners=True)`: bilinear resampling to a fixed target size. -/
def upsampleBilinear {n c h w : Nat} (hOut wOut : Nat) (x : Tensor n c h w) :
    Tensor n c hOut wOut :=
  fun b ch i j =>
    let srcI : ℚ := if hOut ≤ 1 then 0 else (i : Nat) * ((h : ℚ) - 1) / ((hOut : ℚ) - 1)
    let srcJ : ℚ := if wOut ≤ 1 then 0 else (j : Nat) * ((w : ℚ) - 1) / ((wOut : ℚ) - 1)
    let i0 : Nat := ⌊srcI⌋.toNat
    let j0 : Nat := ⌊srcJ⌋.toNat
    let i1 : Nat := min (i0 + 1) (h - 1)
    let j1 : Nat := min (j0 + 1) (w - 1)
    let di : ℚ := srcI - (i0 : ℚ)
    let dj : ℚ := srcJ - (j0 : ℚ)
    (1 - di) * (1 - dj) * cget x b ch i0 j0 + (1 - di) * dj * cget x b ch i0 j1 +
      di * (1 - dj) * cget x b ch i1 j0 + di * dj * cget x b ch i1 j1

/-- `class MeanFieldUpdate` (lines 40–48): the Pairwise Refinement Unit's
learned layers.  `atten_f : (bottom_send + bottom_receive) → feat_num` 3×3,
`message_f : bottom_send → feat_num` 3×3, `Scale : feat_num → bottom_receive`
1×1 with bias.  `self.norm_atten_f = nn.Sigmoid()` carries no parameters and
is passed to the forward function as the scalar function `sigmoid`. -/
structure MeanFieldUpdate (bottom_send bottom_receive feat_num : Nat) where
  atten_f : Conv2dParams (bottom_send + bottom_receive) feat_num 3
  message_f : Conv2dParams bottom_send feat_num 3
  Scale : Conv2dParams feat_num bottom_receive 1

/-- `MeanFieldUpdate.forward` (lines 50–62), statement by statement:
`a_s = torch.cat((x_s, x_S), dim=1)`; `a_s = self.atten_f(a_s)`;
`a_s = self.norm_atten_f(a_s)`; `y_s = self.message_f(x_s)`;
`y_S = y_s.mul(a_s)`; `y_S = self.Scale(y_S)`; `y_S = x_S + y_S`. -/
def mfuForward {n s r fc h w : Nat} (sigmoid : ℚ → ℚ)
    (m : MeanFieldUpdate s r fc) (x_s : Tensor n s h w) (x_S : Tensor n r h w) :
    Tensor n r h w :=
  let a_s := cat2 x_s x_S
  let a_s := conv2d3x3 m.atten_f a_s
  let a_s := mapT sigmoid a_s
  let y_s := conv2d3x3 m.message_f x_s
  let y_S := mulT y_s a_s
  let y_S := conv2d1x1 m.Scale y_S
  let y_S := addT x_S y_S
  y_S

/-- The attention weight tensor computed inside `MeanFieldUpdate.forward`
(lines 52–54): sigmoid of the 3×3 convolution of the channel concatenation. -/
def mfuAttention {n s r fc h w : Nat} (sigmoid : ℚ → ℚ)
    (m : MeanFieldUpdate s r fc) (x_s : Tensor n s h w) (x_S : Tensor n r h w) :
    Tensor n fc h w :=
  mapT sigmoid (conv2d3x3 m.atten_f (cat2 x_s x_S))

/-- The spec's five-step description of the Pairwise Refinement Unit (§4.1):
attention `a`, message `m`, gated message `m ⊙ a`, 1×1 re-projection `delta`,
residual output `R + delta`. -/
def mfuSpecUpdate {n s r fc h w : Nat} (sigmoid : ℚ → ℚ)
    (m : MeanFieldUpdate s r fc) (S : Tensor n s h w) (R : Tensor n r h w) :
    Tensor n r h w :=
  let a := mapT sigmoid (conv2d3x3 m.atten_f (cat2 S R))
  let msg := conv2d3x3 m.message_f S
  let gated := mulT msg a
  let delta := conv2d1x1 m.Scale gated
  addT R delta

/-- Batch-normalization state of `nn.BatchNorm2d(c)`: learned affine
parameters (`weight`, `bias`) and running-statistics buffers
(`running_mean`, `running_var`). -/
structure BatchNorm2dState (c : Nat) where
  weight : Fin c → ℚ
  bias : Fin c → ℚ
  running_mean : Fin c → ℚ
  running_var : Fin c → ℚ

/-- PyTorch's default BatchNorm momentum `0.1`. -/
def bnMomentum : ℚ := 1 / 10

/-- PyTorch's default BatchNorm epsilon `1e-5`. -/
def bnEps : ℚ := 1 / 100000

/-- Per-channel mean over batch and spatial positions. -/
def batchMean {n c h w : Nat} (x : Tensor n c h w) (ch : Fin c) : ℚ :=
  (∑ b : Fin n, ∑ i : Fin h, ∑ j : Fin w, x b ch i j) / ((n : ℚ) * h * w)

/-- Per-channel biased variance (the normalizing statistic). -/
def batchVar {n c h w : Nat} (x : Tensor n c h w) (ch : Fin c) : ℚ :=
  (∑ b : Fin n, ∑ i : Fin h, ∑ j : Fin w, (x b ch i j - batchMean x ch) ^ 2) /
    ((n : ℚ) * h * w)

/-- Per-channel unbiased variance (the statistic written to `running_var`). -/
def batchVarUnbiased {n c h w : Nat} (x : Tensor n c h w) (ch : Fin c) : ℚ :=
  (∑ b : Fin n, ∑ i : Fin h, ∑ j : Fin w, (x b ch i j - batchMean x ch) ^ 2) /
    ((n : ℚ) * h * w - 1)

/-- Output of `nn.BatchNorm2d`: in training mode normalize with the current
batch statistics, in eval mode with the stored running statistics.  `rsqrt`
is the reciprocal square root, abstracted (no exact rational square root). -/
def batchNormOut {n c h w : Nat} (training : Bool) (rsqrt : ℚ → ℚ)
    (bn : BatchNorm2dState c) (x : Tensor n c h w) : Tensor n c h w :=
  fun b ch i j =>
    if training then
      bn.weight ch * ((x b ch i j - batchMean x ch) * rsqrt (batchVar x ch + bnEps)) +
        bn.bias ch
    else
      bn.weight ch * ((x b ch i j - bn.running_mean ch) * rsqrt (bn.running_var ch + bnEps)) +
        bn.bias ch

/-- Buffer update of `nn.BatchNorm2d`: in training mode the running
statistics move toward the batch statistics by `momentum`; in eval mode the
state is untouched.  The learned `weight`/`bias` are never written. -/
def batchNormUpdate {n c h w : Nat} (training : Bool) (bn : BatchNorm2dState c)
    (x : Tensor n c h w) : BatchNorm2dState c :=
  if training then
    { bn with
      running_mean := fun ch =>
        (1 - bnMomentum) * bn.running_mean ch + bnMomentum * batchMean x ch
      running_var := fun ch =>
        (1 - bnMomentum) * bn.running_var ch + bnMomentum * batchVarUnbiased x ch }
  else bn

/-- One `nn.BatchNorm2d` application as a state transformer. -/
def batchNorm2d {n c h w : Nat} (training : Bool) (rsqrt : ℚ → ℚ)
    (bn : BatchNorm2dState c) (x : Tensor n c h w) :
    Tensor n c h w × BatchNorm2dState c :=
  (batchNormOut training rsqrt bn x, batchNormUpdate training bn x)

/-- `class back` (lines 70–84): the Decoder's learned layers.  The channel
counts come from the source's floor divisions `feat_num // 2`, `// 4`, `// 8`
(Python `//` on non-negative integers is `Nat` division). -/
structure backState (feat_num : Nat) where
  pred_1 : ConvT2dParams feat_num (feat_num / 2) 4
  bn1 : BatchNorm2dState (feat_num / 2)
  pred_2 : ConvT2dParams (feat_num / 2) (feat_num / 4) 4
  bn2 : BatchNorm2dState (feat_num / 4)
  pred_3 : Conv2dParams (feat_num / 4) (feat_num / 8) 3
  bn3 : BatchNorm2dState (feat_num / 8)
  pred_4 : Conv2dParams (feat_num / 8) 1 3

/-- Decoder output height (lines 99–102): `(256, 1024)` under
`self.training`, `(368, 1232)` otherwise. -/
def backOutH (training : Bool) : Nat := if training then 256 else 368

/-- Decoder output width (lines 99–102). -/
def backOutW (training : Bool) : Nat := if training then 1024 else 1232

/-- `back.forward` (lines 86–104): transposed conv → bn → SELU, twice; then
conv3×3 → bn → SELU; conv3×3 to one channel; finally bilinear resampling to
the mode-dependent target resolution.  Returns the output together with the
decoder state (whose only changed part can be the BatchNorm buffers). -/
def backForward {n f h w : Nat} (training : Bool) (selu rsqrt : ℚ → ℚ)
    (B : backState f) (x : Tensor n f h w) :
    Tensor n 1 (backOutH training) (backOutW training) × backState f :=
  let pred1 := convT4s2p1 B.pred_1 x
  let b1 := batchNorm2d training rsqrt B.bn1 pred1
  let pred1s := mapT selu b1.1
  let pred2 := convT4s2p1 B.pred_2 pred1s
  let b2 := batchNorm2d training rsqrt B.bn2 pred2
  let pred2s := mapT selu b2.1
  let pred3 := conv2d3x3 B.pred_3 pred2s
  let b3 := batchNorm2d training rsqrt B.bn3 pred3
  let pred3s := mapT selu b3.1
  let pred4 := conv2d3x3 B.pred_4 pred3s
  (upsampleBilinear (backOutH training) (backOutW training) pred4,
   { B with bn1 := b1.2, bn2 := b2.2, bn3 := b3.2 })

/-- `class front.__init__` (lines 113–200): the stored `in_channels`
(`self.channel`, line 118, never read again), the two projection
transposed convolutions (lines 132, 137), and the fifteen independently
parameterized `MeanFieldUpdate` instances (lines 151–173).  The parameterless
`nn.UpsamplingBilinear2d(size=(feat_height, feat_width))` layers are the
`upsampleBilinear feat_height feat_width` applications in the forward.  The
ResNet-34 backbone modules (lines 117–128) are external to the repository
and enter the forward as an abstract function. -/
structure frontState (feat_num feat_height feat_width : Nat) where
  channel : Nat
  res4f_dec_1 : ConvT2dParams 256 feat_num 4
  res5c_dec_1 : ConvT2dParams 512 feat_num 8
  meanFieldUpdate1_1 : MeanFieldUpdate feat_num feat_num feat_num
  meanFieldUpdate1_2 : MeanFieldUpdate feat_num feat_num feat_num
  meanFieldUpdate1_3 : MeanFieldUpdate feat_num feat_num feat_num
  meanFieldUpdate2_1 : MeanFieldUpdate feat_num feat_num feat_num
  meanFieldUpdate2_2 : MeanFieldUpdate feat_num feat_num feat_num
  meanFieldUpdate2_3 : MeanFieldUpdate feat_num feat_num feat_num
  meanFieldUpdate3_1 : MeanFieldUpdate feat_num feat_num feat_num
  meanFieldUpdate3_2 : MeanFieldUpdate feat_num feat_num feat_num
  meanFieldUpdate3_3 : MeanFieldUpdate feat_num feat_num feat_num
  meanFieldUpdate4_1 : MeanFieldUpdate feat_num feat_num feat_num
  meanFieldUpdate4_2 : MeanFieldUpdate feat_num feat_num feat_num
  meanFieldUpdate4_3 : MeanFieldUpdate feat_num feat_num feat_num
  meanFieldUpdate5_1 : MeanFieldUpdate feat_num feat_num feat_num
  meanFieldUpdate5_2 : MeanFieldUpdate feat_num feat_num feat_num
  meanFieldUpdate5_3 : MeanFieldUpdate feat_num feat_num feat_num

/-- The Multi-Scale Projector: lines 216–225 of `front.forward`.  Line 221
rebinds `res4f_1` to the deep branch's activation; moreover the ReLU modules
are constructed with `inplace=True`, so line 221 also overwrites the buffer
named `res5c_1` with its rectification — both effects are made explicit here
by `let` shadowing.  Line 223's `res4f = self.res4f_dec(res4f_1)` therefore
resamples the deep branch's activated tensor, exactly like line 225.
`res3d` keeps its backbone channel count `c3` (it is only resampled). -/
def frontProject {n f fh fw c3 h3 w3 h4 w4 h5 w5 : Nat}
    (F : frontState f fh fw) (res3d : Tensor n c3 h3 w3)
    (res4f : Tensor n 256 h4 w4) (res5c : Tensor n 512 h5 w5) :
    Tensor n c3 fh fw × Tensor n f fh fw × Tensor n f fh fw :=
  let res4f_1 := mapT relu (convT4s2p1 F.res4f_dec_1 res4f)
  let res5c_1 := convT8s4p2 F.res5c_dec_1 res5c
  let res5c_1 := mapT relu res5c_1
  let res4f_1 := res5c_1
  (upsampleBilinear fh fw res3d,
   upsampleBilinear fh fw res4f_1,
   upsampleBilinear fh fw res5c_1)

/-- The Refinement Scheduler: lines 231–250 of `front.forward`.  Five rounds
of three `MeanFieldUpdate` applications with sender order
`(res3d, res4f, res5c)`, accumulating into `y_S` starting from the first
call's receiver `res5c`. -/
def frontSchedule {n f fh fw : Nat} (sigmoid : ℚ → ℚ)
    (F : frontState f fh fw) (res3d res4f res5c : Tensor n f fh fw) :
    Tensor n f fh fw :=
  let y_S := mfuForward sigmoid F.meanFieldUpdate1_1 res3d res5c
  let y_S := mfuForward sigmoid F.meanFieldUpdate1_2 res4f y_S
  let y_S := mfuForward sigmoid F.meanFieldUpdate1_3 res5c y_S
  let y_S := mfuForward sigmoid F.meanFieldUpdate2_1 res3d y_S
  let y_S := mfuForward sigmoid F.meanFieldUpdate2_2 res4f y_S
  let y_S := mfuForward sigmoid F.meanFieldUpdate2_3 res5c y_S
  let y_S := mfuForward sigmoid F.meanFieldUpdate3_1 res3d y_S
  let y_S := mfuForward sigmoid F.meanFieldUpdate3_2 res4f y_S
  let y_S := mfuForward sigmoid F.meanFieldUpdate3_3 res5c y_S
  let y_S := mfuForward sigmoid F.meanFieldUpdate4_1 res3d y_S
  let y_S := mfuForward sigmoid F.meanFieldUpdate4_2 res4f y_S
  let y_S := mfuForward sigmoid F.meanFieldUpdate4_3 res5c y_S
  let y_S := mfuForward sigmoid F.meanFieldUpdate5_1 res3d y_S
  let y_S := mfuForward sigmoid F.meanFieldUpdate5_2 res4f y_S
  let y_S := mfuForward sigmoid F.meanFieldUpdate5_3 res5c y_S
  y_S

/-- The scheduler's unit instance for step `k` (0-indexed): the fifteen
distinct record fields in source order. -/
def scheduleUnit {f fh fw : Nat} (F : frontState f fh fw) :
    Fin 15 → MeanFieldUpdate f f f := fun k =>
  match k with
  | ⟨0, _⟩ => F.meanFieldUpdate1_1
  | ⟨1, _⟩ => F.meanFieldUpdate1_2
  | ⟨2, _⟩ => F.meanFieldUpdate1_3
  | ⟨3, _⟩ => F.meanFieldUpdate2_1
  | ⟨4, _⟩ => F.meanFieldUpdate2_2
  | ⟨5, _⟩ => F.meanFieldUpdate2_3
  | ⟨6, _⟩ => F.meanFieldUpdate3_1
  | ⟨7, _⟩ => F.meanFieldUpdate3_2
  | ⟨8, _⟩ => F.meanFieldUpdate3_3
  | ⟨9, _⟩ => F.meanFieldUpdate4_1
  | ⟨10, _⟩ => F.meanFieldUpdate4_2
  | ⟨11, _⟩ => F.meanFieldUpdate4_3
  | ⟨12, _⟩ => F.meanFieldUpdate5_1
  | ⟨13, _⟩ => F.meanFieldUpdate5_2
  | ⟨14, _⟩ => F.meanFieldUpdate5_3
  | ⟨m + 15, hm⟩ => absurd hm (by omega)

/-- The scheduler's sender for step `k` (0-indexed): shallow, mid, deep
repeated — `res3d` when `k % 3 = 0`, `res4f` when `k % 3 = 1`, `res5c`
when `k % 3 = 2`. -/
def scheduleSender {n f fh fw : Nat} (res3d res4f res5c : Tensor n f fh fw)
    (k : Nat) : Tensor n f fh fw :=
  match k % 3 with
  | 0 => res3d
  | 1 => res4f
  | _ => res5c

/-- The spec's accumulator recurrence (§4.3): `accumulator_0 = deep_map`,
`accumulator_k = unit_k(sender_k, accumulator_{k-1})` for `k = 1..15`. -/
def scheduleAccum {n f fh fw : Nat} (sigmoid : ℚ → ℚ) (F : frontState f fh fw)
    (res3d res4f res5c : Tensor n f fh fw) : Nat → Tensor n f fh fw
  | 0 => res5c
  | k + 1 =>
    if hk : k < 15 then
      mfuForward sigmoid (scheduleUnit F ⟨k, hk⟩)
        (scheduleSender res3d res4f res5c k)
        (scheduleAccum sigmoid F res3d res4f res5c k)
    else scheduleAccum sigmoid F res3d res4f res5c k

/-- `front.forward` (lines 202–253): backbone activations (abstracted as the
function `backbone`, since ResNet-34 lives in `torchvision`, outside this
repository), then the Multi-Scale Projector, then the Refinement Scheduler.
The backbone's `res3d` channel count must equal `feat_num` for the scheduler
to be well-typed (with ResNet-34's 128-channel `layer2` output this pins
`feat_num = 128`); the embedding states this constraint in the type. -/
def frontForward {n f fh fw hh ww h3 w3 h4 w4 h5 w5 : Nat} (sigmoid : ℚ → ℚ)
    (F : frontState f fh fw)
    (backbone : Tensor n 3 hh ww →
      Tensor n f h3 w3 × Tensor n 256 h4 w4 × Tensor n 512 h5 w5)
    (x : Tensor n 3 hh ww) : Tensor n f fh fw :=
  let acts := backbone x
  let proj := frontProject F acts.1 acts.2.1 acts.2.2
  frontSchedule sigmoid F proj.1 proj.2.1 proj.2.2

/-- `class SAStereonet.__init__` (lines 260–263): one shared feature
extractor and a decoder over `2*feat_num` channels (written `f + f`, the
channel count produced by concatenating the two streams). -/
structure SAStereonetState (feat_num feat_height feat_width : Nat) where
  feature_extractor : frontState feat_num feat_height feat_width
  deconv : backState (feat_num + feat_num)

/-- `SAStereonet.forward` (lines 265–273): the single `feature_extractor`
instance is evaluated on the right image, then on the left image;
`torch.cat((feat_left, feat_right), 1)` concatenates along channels; the
decoder produces the prediction.  Returned next to the output is the updated
model state (only the decoder's BatchNorm buffers can differ). -/
def sastereonetForward {n f fh fw hh ww h3 w3 h4 w4 h5 w5 : Nat}
    (training : Bool) (sigmoid selu rsqrt : ℚ → ℚ)
    (backbone : Tensor n 3 hh ww →
      Tensor n f h3 w3 × Tensor n 256 h4 w4 × Tensor n 512 h5 w5)
    (M : SAStereonetState f fh fw) (leftimg rightimg : Tensor n 3 hh ww) :
    Tensor n 1 (backOutH training) (backOutW training) × SAStereonetState f fh fw :=
  let feat_right := frontForward sigmoid M.feature_extractor backbone rightimg
  let feat_left := frontForward sigmoid M.feature_extractor backbone leftimg
  let final_feat := cat2 feat_left feat_right
  let dec := backForward training selu rsqrt M.deconv final_feat
  (dec.1, { M with deconv := dec.2 })

/-- Output spatial size of `nn.ConvTranspose2d(kernel_size=k, stride=s,
padding=p)` on an input dimension `h`: `(h-1)*s + k - 2*p`. -/
def convTranspose2dOutDim (k s p h : Nat) : Nat := (h - 1) * s + k - 2 * p

/-- Output spatial size of `nn.Conv2d(kernel_size=k, stride=s, padding=p)`
on an input dimension `h`: `(h + 2*p - k) / s + 1`. -/
def conv2dOutDim (k s p h : Nat) : Nat := (h + 2 * p - k) / s + 1

/-- `nn.functional.interpolate(size=target)` forces the output dimension to
the target, discarding the input dimension. -/
def interpolateOutDim (target h : Nat) : Nat := target

/-- Shape semantics of `back.forward` (lines 86–104), stage by stage:
`pred_1` (4×4 transposed conv, stride 2, `f → f/2`), `pred_2` (same,
`f/2 → f/4`), `pred_3` (3×3 conv, `f/4 → f/8`), `pred_4` (3×3 conv,
`f/8 → 1`), then the mode-dependent bilinear resampling of lines 99–102. -/
def backOutShape (training : Bool) (f h w : Nat) : Nat × Nat × Nat :=
  let c1 := f / 2
  let h1 := convTranspose2dOutDim 4 2 1 h
  let w1 := convTranspose2dOutDim 4 2 1 w
  let c2 := f / 4
  let h2 := convTranspose2dOutDim 4 2 1 h1
  let w2 := convTranspose2dOutDim 4 2 1 w1
  let c3 := f / 8
  let h3 := conv2dOutDim 3 1 1 h2
  let w3 := conv2dOutDim 3 1 1 w2
  let c4 := 1
  let h4 := conv2dOutDim 3 1 1 h3
  let w4 := conv2dOutDim 3 1 1 w3
  (c4, interpolateOutDim (backOutH training) h4, interpolateOutDim (backOutW training) w4)

/-- The in/out channel pairs of the four learned layers built by
`back.__init__` (lines 70–84); Python's `//` is `Nat` division here.  The
constructor contains no validation of `feat_num`. -/
def backInitChannels (feat_num : Nat) : List (Nat × Nat) :=
  [(feat_num, feat_num / 2), (feat_num / 2, feat_num / 4),
   (feat_num / 4, feat_num / 8), (feat_num / 8, 1)]

/-- Construction of the Decoder as a fallible computation: the source
performs no divisibility (or any other) check in `back.__init__`, so the
only possible outcome is success with the floor-divided channel sizes. -/
def backInitChecked (feat_num : Nat) : Except String (List (Nat × Nat)) :=
  Except.ok (backInitChannels feat_num)

/-- Whether Decoder construction succeeds. -/
def backInitSucceeds (feat_num : Nat) : Bool :=
  match backInitChecked feat_num with
  | Except.ok _ => true
  | Except.error _ => false

/-- `front.__init__`'s use of its `in_channels` argument (line 118): it is
stored in `self.channel` and configures nothing else — every layer of the
extractor is built from literals and `feat_num` (lines 120–173), here
collected in `F0`. -/
def frontInit {f fh fw : Nat} (in_channels : Nat) (F0 : frontState f fh fw) :
    frontState f fh fw :=
  { F0 with channel := in_channels }

/-- Modelled from the spec: the backbone feature extractor is the pretrained
torchvision ResNet-34 (not part of this repository's sources); its first
convolution `conv1` expects 3-channel input (§6: input images have
`in_channels` defaulting to 3; the backbone is an external collaborator). -/
def conv1InChannels : Nat := 3

/-- Modelled from the spec: the channel shape check the first backbone
convolution applies to a forward input — it compares the input's channel
count against `conv1`'s fixed 3 input channels and consults nothing of the
extractor's stored configuration. -/
def frontInputChannelsOk {f fh fw : Nat} (F : frontState f fh fw)
    (inputChannels : Nat) : Bool :=
  decide (inputChannels = conv1InChannels)

/-- All-zero 2d-convolution parameters (used to build concrete instances). -/
def conv2dZero {cin cout k : Nat} : Conv2dParams cin cout k :=
  { weight := fun _ _ _ _ => 0, bias := fun _ => 0 }

/-- All-zero transposed-convolution parameters. -/
def convT2dZero {cin cout k : Nat} : ConvT2dParams cin cout k :=
  { weight := fun _ _ _ _ => 0, bias := fun _ => 0 }

/-- BatchNorm state with PyTorch's initialization values. -/
def bnInitState {c : Nat} : BatchNorm2dState c :=
  { weight := fun _ => 1, bias := fun _ => 0,
    running_mean := fun _ => 0, running_var := fun _ => 1 }

/-- A refinement unit with all-zero parameters. -/
def mfuZero {s r fc : Nat} : MeanFieldUpdate s r fc :=
  { atten_f := conv2dZero, message_f := conv2dZero, Scale := conv2dZero }

/-- A refinement unit whose `Scale` (1×1) convolution has bias constantly 1
and all weights zero. -/
def mfuScaleBias1 {s r fc : Nat} : MeanFieldUpdate s r fc :=
  { atten_f := conv2dZero, message_f := conv2dZero,
    Scale := { weight := fun _ _ _ _ => 0, bias := fun _ => 1 } }

/-- The constant-zero scalar function, standing in for a sigmoid whose
logits have all been driven to `-∞` (the spec's fully closed gate). -/
def sigmaZero : ℚ → ℚ := fun _ => 0

/-- The all-zero `1×1×1×1` tensor. -/
def tZero : Tensor 1 1 1 1 := fun _ _ _ _ => 0

/-- An all-zero image tensor of arbitrary shape. -/
def zeroT {n c h w : Nat} : Tensor n c h w := fun _ _ _ _ => 0

/-- A concrete extractor state with all-zero parameters (`feat_num = 1`,
`feat_height = feat_width = 1`). -/
def frontStateEx : frontState 1 1 1 :=
  { channel := 3, res4f_dec_1 := convT2dZero, res5c_dec_1 := convT2dZero,
    meanFieldUpdate1_1 := mfuZero, meanFieldUpdate1_2 := mfuZero,
    meanFieldUpdate1_3 := mfuZero, meanFieldUpdate2_1 := mfuZero,
    meanFieldUpdate2_2 := mfuZero, meanFieldUpdate2_3 := mfuZero,
    meanFieldUpdate3_1 := mfuZero, meanFieldUpdate3_2 := mfuZero,
    meanFieldUpdate3_3 := mfuZero, meanFieldUpdate4_1 := mfuZero,
    meanFieldUpdate4_2 := mfuZero, meanFieldUpdate4_3 := mfuZero,
    meanFieldUpdate5_1 := mfuZero, meanFieldUpdate5_2 := mfuZero,
    meanFieldUpdate5_3 := mfuZero }

/-- A concrete decoder state with all-zero convolutions and freshly
initialized BatchNorm layers, over `2·feat_num = 1 + 1` channels. -/
def backStateEx : backState (1 + 1) :=
  { pred_1 := convT2dZero, bn1 := bnInitState, pred_2 := convT2dZero,
    bn2 := bnInitState, pred_3 := conv2dZero, bn3 := bnInitState,
    pred_4 := conv2dZero }

/-- A concrete full model state. -/
def modelEx : SAStereonetState 1 1 1 :=
  { feature_extractor := frontStateEx, deconv := backStateEx }

/-- A concrete backbone producing all-zero activation maps of the smallest
shapes. -/
def backboneEx : Tensor 1 3 1 1 →
    Tensor 1 1 1 1 × Tensor 1 256 1 1 × Tensor 1 512 1 1 :=
  fun _ => (zeroT, zeroT, zeroT)

/-- The learned parameters of the Decoder: all four convolutions' weights
and biases and the three BatchNorm affine parameters — everything except
the BatchNorm running statistics. -/
def backLearned {f : Nat} (B : backState f) :=
  (B.pred_1, B.bn1.weight, B.bn1.bias, B.pred_2, B.bn2.weight, B.bn2.bias,
   B.pred_3, B.bn3.weight, B.bn3.bias, B.pred_4)

/-- C2: `MeanFieldUpdate.forward` computes exactly the spec §4.1 pipeline —
attention `a = sigmoid(conv3x3(cat(S, R)))` over `C_s + C_r → F` channels,
message `m = conv3x3(S)` over `C_s → F` channels, gating `m ⊙ a`, biased
1×1 re-projection `F → C_r`, and the residual output `R + delta`; the output
type `Tensor n r h w` is the receiver's shape. -/
theorem mfu_forward_matches_spec {n s r fc h w : Nat} (sigmoid : ℚ → ℚ)
    (m : MeanFieldUpdate s r fc) (S : Tensor n s h w) (R : Tensor n r h w) :
    mfuForward sigmoid m S R = mfuSpecUpdate sigmoid m S R := rfl

/-- C1 (amended): if the computed attention weights are all zero AND the
`Scale` 1×1 convolution's bias is zero, `MeanFieldUpdate.forward` returns
the receiver unchanged.  (The bias hypothesis is necessary: `Scale` is
constructed with `bias=True`, so a closed gate yields `R + bias`.) -/
theorem mfu_gate_closed_identity {n s r fc h w : Nat} (sigmoid : ℚ → ℚ)
    (m : MeanFieldUpdate s r fc) (x_s : Tensor n s h w) (x_S : Tensor n r h w)
    (hatt : ∀ b c i j, mfuAttention sigmoid m x_s x_S b c i j = 0)
    (hbias : ∀ o, m.Scale.bias o = 0) :
    mfuForward sigmoid m x_s x_S = x_S := by
  funext b c i j
  have key : ∀ cc : Fin fc,
      m.Scale.weight c cc 0 0 *
        (conv2d3x3 m.message_f x_s b cc i j *
          mfuAttention sigmoid m x_s x_S b cc i j) = 0 := by
    intro cc
    rw [hatt b cc i j, mul_zero, mul_zero]
  calc mfuForward sigmoid m x_s x_S b c i j
      = x_S b c i j + (m.Scale.bias c + ∑ cc : Fin fc,
          m.Scale.weight c cc 0 0 *
            (conv2d3x3 m.message_f x_s b cc i j *
              mfuAttention sigmoid m x_s x_S b cc i j)) := rfl
    _ = x_S b c i j := by
        rw [hbias c, Finset.sum_eq_zero fun cc _ => key cc]
        ring

/-- C1 witness: with a constant-zero gate, all-zero parameters (in
particular zero `Scale` bias) and the zero `1×1×1×1` tensors, both
hypotheses hold and the update returns the receiver. -/
theorem mfu_gate_closed_identity_witness :
    (∀ b c i j,
      mfuAttention sigmaZero (mfuZero : MeanFieldUpdate 1 1 1) tZero tZero b c i j = 0) ∧
    (∀ o : Fin 1, (mfuZero : MeanFieldUpdate 1 1 1).Scale.bias o = 0) ∧
    mfuForward sigmaZero (mfuZero : MeanFieldUpdate 1 1 1) tZero tZero = tZero :=
  ⟨fun _ _ _ _ => rfl, fun _ => rfl,
   mfu_gate_closed_identity sigmaZero mfuZero tZero tZero
     (fun _ _ _ _ => rfl) (fun _ => rfl)⟩

/-- C1 counterexample: with the gate fully closed (attention identically
zero) but `Scale` bias 1, the unit applied to zero sender/receiver returns
the constant-1 tensor, not the receiver — the claim's unconditional
"output equals `R` exactly" fails on the code because `Scale` has
`bias=True`. -/
theorem mfu_gate_closed_counterexample :
    (∀ b c i j,
      mfuAttention sigmaZero (mfuScaleBias1 : MeanFieldUpdate 1 1 1) tZero tZero b c i j = 0) ∧
    mfuForward sigmaZero (mfuScaleBias1 : MeanFieldUpdate 1 1 1) tZero tZero 0 0 0 0 ≠
      tZero 0 0 0 0 := by
  constructor
  · intro b c i j; rfl
  · show (0 : ℚ) + ((1 : ℚ) + ∑ cc : Fin 1,
        (0 : ℚ) * (conv2d3x3 (mfuScaleBias1 : MeanFieldUpdate 1 1 1).message_f tZero 0 cc 0 0 *
          mfuAttention sigmaZero (mfuScaleBias1 : MeanFieldUpdate 1 1 1) tZero tZero 0 cc 0 0)) ≠ 0
    simp

set_option maxHeartbeats 2000000 in
/-- C3: the Refinement Scheduler in `front.forward` (lines 231–250) is the
spec's 15-step accumulation — `accumulator_0 = deep map`,
`accumulator_k = unit_k(sender_k, accumulator_{k-1})` with sender order
(shallow, mid, deep) repeated over 5 rounds — and the 15 unit instances are
independently parameterized: any assignment of 15 parameter sets is realized
by some extractor state. -/
theorem front_schedule_is_accumulator {n f fh fw : Nat} (sigmoid : ℚ → ℚ)
    (F : frontState f fh fw) (res3d res4f res5c : Tensor n f fh fw) :
    frontSchedule sigmoid F res3d res4f res5c =
      scheduleAccum sigmoid F res3d res4f res5c 15 ∧
    ∀ u : Fin 15 → MeanFieldUpdate f f f, ∃ G : frontState f fh fw,
      ∀ k, scheduleUnit G k = u k := by
  constructor
  · rfl
  · intro u
    refine ⟨⟨0, convT2dZero, convT2dZero, u ⟨0, by omega⟩, u ⟨1, by omega⟩,
      u ⟨2, by omega⟩, u ⟨3, by omega⟩, u ⟨4, by omega⟩, u ⟨5, by omega⟩,
      u ⟨6, by omega⟩, u ⟨7, by omega⟩, u ⟨8, by omega⟩, u ⟨9, by omega⟩,
      u ⟨10, by omega⟩, u ⟨11, by omega⟩, u ⟨12, by omega⟩, u ⟨13, by omega⟩,
      u ⟨14, by omega⟩⟩, ?_⟩
    intro k
    fin_cases k <;> rfl

set_option maxHeartbeats 1000000 in
/-- C4: in the Multi-Scale Projector (lines 216–225) the "mid" and "deep"
feature maps handed to refinement are the same tensor (the bilinear
resampling of the deep branch's activation), and the whole projector output
is independent of both the mid activation map `res4f` and the mid branch's
learned parameters `res4f_dec_1` — the mid branch is computed and
discarded. -/
theorem front_project_mid_deep_aliased {n f fh fw c3 h3 w3 h4 w4 h5 w5 : Nat}
    (F : frontState f fh fw) (res3d : Tensor n c3 h3 w3)
    (res4f res4fAlt : Tensor n 256 h4 w4) (pAlt : ConvT2dParams 256 f 4)
    (res5c : Tensor n 512 h5 w5) :
    (frontProject F res3d res4f res5c).2.1 =
      (frontProject F res3d res4f res5c).2.2 ∧
    frontProject { F with res4f_dec_1 := pAlt } res3d res4fAlt res5c =
      frontProject F res3d res4f res5c :=
  ⟨rfl, rfl⟩

/-- C5: the Decoder's output shape depends only on the execution mode — the
stage-by-stage shape semantics of `back.forward` (channel path
`f → f/2 → f/4 → f/8 → 1`, spatial path overridden by the final
`interpolate`) gives `(1, 256, 1024)` in training mode and `(1, 368, 1232)`
in eval mode, for every input shape.  The value-level `backForward` realizes
the same contract in its result type
`Tensor n 1 (backOutH training) (backOutW training)`. -/
theorem back_output_shape_mode_only :
    (∀ f h w, backOutShape true f h w = (1, 256, 1024)) ∧
    (∀ f h w, backOutShape false f h w = (1, 368, 1232)) :=
  ⟨fun _ _ _ => rfl, fun _ _ _ => rfl⟩

/-- C6 counterexample: `feat_num = 12` is not divisible by 8, yet Decoder
construction succeeds — `back.__init__` performs floor division and no
validation, so no ConfigurationError is raised eagerly (or at all). -/
theorem back_init_no_validation_at_12 :
    ¬ (8 ∣ 12) ∧ backInitSucceeds 12 = true ∧
    backInitChannels 12 = [(12, 6), (6, 3), (3, 1), (1, 1)] := by
  refine ⟨by decide, rfl, rfl⟩

/-- C6 (amended): `back.__init__` never raises — construction succeeds for
every `feat_num`, with the floor-divided channel sizes chaining consistently
(each layer's output count is the next layer's input count); when `feat_num`
is divisible by 8 the halving/quartering/eighthing is exact, so in
particular construction succeeds without shape errors. -/
theorem back_init_floor_division (f : Nat) (h : 8 ∣ f) :
    backInitSucceeds f = true ∧ (f / 2 / 2 = f / 4 ∧ f / 4 / 2 = f / 8) ∧
    (2 * (f / 2) = f ∧ 4 * (f / 4) = f ∧ 8 * (f / 8) = f) := by
  obtain ⟨k, rfl⟩ := h
  refine ⟨rfl, ⟨?_, ?_⟩, ?_, ?_, ?_⟩ <;> omega

/-- C6 witness: the amended statement instantiated at `feat_num = 16`. -/
theorem back_init_floor_division_witness :
    (8 ∣ 16) ∧ backInitSucceeds 16 = true ∧
    (16 / 2 / 2 = 16 / 4 ∧ 16 / 4 / 2 = 16 / 8) ∧
    (2 * (16 / 2) = 16 ∧ 4 * (16 / 4) = 16 ∧ 8 * (16 / 8) = 16) :=
  ⟨by decide, back_init_floor_division 16 (by decide)⟩

set_option maxHeartbeats 2000000 in
/-- C7: the Dual-Stream Composer runs the one shared `feature_extractor`
instance (the same parameter record `M.feature_extractor`, not a copy) on
the left and on the right image, concatenates the two `feat_num`-channel
results along the channel axis into a `feat_num + feat_num`-channel map with
the left stream first, and hands that map to the Decoder `M.deconv`. -/
theorem sastereonet_dual_stream_composition
    {n f fh fw hh ww h3 w3 h4 w4 h5 w5 : Nat} (training : Bool)
    (sigmoid selu rsqrt : ℚ → ℚ)
    (backbone : Tensor n 3 hh ww →
      Tensor n f h3 w3 × Tensor n 256 h4 w4 × Tensor n 512 h5 w5)
    (M : SAStereonetState f fh fw) (leftimg rightimg : Tensor n 3 hh ww) :
    sastereonetForward training sigmoid selu rsqrt backbone M leftimg rightimg =
      ((backForward training selu rsqrt M.deconv
          (cat2 (frontForward sigmoid M.feature_extractor backbone leftimg)
            (frontForward sigmoid M.feature_extractor backbone rightimg))).1,
       { M with deconv := (backForward training selu rsqrt M.deconv
          (cat2 (frontForward sigmoid M.feature_extractor backbone leftimg)
            (frontForward sigmoid M.feature_extractor backbone rightimg))).2 }) :=
  rfl

/-- C8: with stochastic regularization disabled (eval mode,
`training = false`), the full forward pass — including the 15-step
refinement accumulation — is a pure function of the parameters and the
inputs: two runs on equal inputs produce identical outputs and identical
final states. -/
theorem eval_forward_deterministic {n f fh fw hh ww h3 w3 h4 w4 h5 w5 : Nat}
    (sigmoid selu rsqrt : ℚ → ℚ)
    (backbone : Tensor n 3 hh ww →
      Tensor n f h3 w3 × Tensor n 256 h4 w4 × Tensor n 512 h5 w5)
    (M : SAStereonetState f fh fw) (l1 r1 l2 r2 : Tensor n 3 hh ww)
    (hl : l1 = l2) (hr : r1 = r2) :
    sastereonetForward false sigmoid selu rsqrt backbone M l1 r1 =
      sastereonetForward false sigmoid selu rsqrt backbone M l2 r2 := by
  rw [hl, hr]

/-- C8 witness: two eval-mode runs of the concrete all-zero model on the
concrete all-zero image pair coincide. -/
theorem eval_forward_deterministic_witness :
    (zeroT : Tensor 1 3 1 1) = zeroT ∧ (zeroT : Tensor 1 3 1 1) = zeroT ∧
    sastereonetForward false sigmaZero sigmaZero sigmaZero backboneEx modelEx
        zeroT zeroT =
      sastereonetForward false sigmaZero sigmaZero sigmaZero backboneEx modelEx
        zeroT zeroT :=
  ⟨rfl, rfl,
   eval_forward_deterministic sigmaZero sigmaZero sigmaZero backboneEx modelEx
     zeroT zeroT zeroT zeroT rfl rfl⟩

/-- BatchNorm's buffer update never writes the learned `weight`. -/
theorem batchNormUpdate_keeps_weight {n c h w : Nat} (t : Bool)
    (bn : BatchNorm2dState c) (x : Tensor n c h w) :
    (batchNormUpdate t bn x).weight = bn.weight := by
  cases t <;> rfl

/-- BatchNorm's buffer update never writes the learned `bias`. -/
theorem batchNormUpdate_keeps_bias {n c h w : Nat} (t : Bool)
    (bn : BatchNorm2dState c) (x : Tensor n c h w) :
    (batchNormUpdate t bn x).bias = bn.bias := by
  cases t <;> rfl

/-- C9: a forward pass never mutates a learned parameter — the returned
state keeps the extractor (projector and all 15 refinement units) exactly,
and every convolution weight/bias and BatchNorm affine parameter of the
Decoder; in training mode only the BatchNorm running statistics may
change. -/
theorem forward_preserves_learned_params
    {n f fh fw hh ww h3 w3 h4 w4 h5 w5 : Nat} (training : Bool)
    (sigmoid selu rsqrt : ℚ → ℚ)
    (backbone : Tensor n 3 hh ww →
      Tensor n f h3 w3 × Tensor n 256 h4 w4 × Tensor n 512 h5 w5)
    (M : SAStereonetState f fh fw) (leftimg rightimg : Tensor n 3 hh ww) :
    (sastereonetForward training sigmoid selu rsqrt backbone M leftimg rightimg).2.feature_extractor =
      M.feature_extractor ∧
    backLearned
        (sastereonetForward training sigmoid selu rsqrt backbone M leftimg rightimg).2.deconv =
      backLearned M.deconv := by
  refine ⟨rfl, ?_⟩
  simp only [sastereonetForward, backForward, batchNorm2d, backLearned,
    batchNormUpdate_keeps_weight, batchNormUpdate_keeps_bias]

set_option maxHeartbeats 2000000 in
/-- C10: `front.__init__`'s `in_channels` is stored in `self.channel` and
configures nothing — overriding the stored field turns the construction for
one `in_channels` into the construction for another, the forward pass is
identical for every configured value, and the input-channel shape check of
the (external, spec-modelled) ResNet-34 first convolution accepts exactly
3-channel inputs, regardless of the configuration. -/
theorem front_in_channels_unused {f fh fw : Nat} :
    (∀ (c1 c2 : Nat) (F0 : frontState f fh fw),
      { frontInit c1 F0 with channel := c2 } = frontInit c2 F0) ∧
    (∀ (n hh ww h3 w3 h4 w4 h5 w5 c1 c2 : Nat) (F0 : frontState f fh fw)
      (sigmoid : ℚ → ℚ)
      (backbone : Tensor n 3 hh ww →
        Tensor n f h3 w3 × Tensor n 256 h4 w4 × Tensor n 512 h5 w5)
      (x : Tensor n 3 hh ww),
      frontForward sigmoid (frontInit c1 F0) backbone x =
        frontForward sigmoid (frontInit c2 F0) backbone x) ∧
    (∀ (F : frontState f fh fw) (c : Nat),
      frontInputChannelsOk F c = true ↔ c = conv1InChannels) := by
  refine ⟨fun c1 c2 F0 => rfl,
    fun n hh ww h3 w3 h4 w4 h5 w5 c1 c2 F0 sigmoid backbone x => rfl,
    fun F c => ?_⟩
  simp [frontInputChannelsOk]
